import Mathlib

/-!
# Connection bootstrapping (`internal/data/data.go`, package `db`)

A shallow embedding of the package and the properties proved about it.

* `NewDSN` is a pure function; it is embedded together with the fragment of
  `fmt.Sprintf` that its format string exercises.
* `NewPostgres`, `NewRedis`, the cleanup closures they return and `CheckRedis`
  call into third-party client libraries.  Those calls are the fields of `Lib`
  (they are parameters of every definition), and every call that touches the
  outside is recorded, with its answer, in a chronological list of `Event`s
  that is passed through each function explicitly.  The answer of a network
  operation may depend on everything that happened before, so it is a function
  of that list.
* Go pointers and function values that may be `nil` are `Option`s.
* A call that panics does not return: `pgdriver.WithDSN` panics on a DSN
  that the driver cannot parse, and `NewPostgres` does not recover, so
  `NewPostgres` returns an `Except` whose `error` is the value of the panic.
  The other library calls of the package return.
-/

set_option linter.unusedVariables false

namespace Db

/-! ## Errors -/

/-- A Go `error` value.  `base` is an error that wraps nothing; `wrap` is the
`*fmt.wrapError` that `fmt.Errorf` builds for a `%w` verb: it has a message of
its own and remembers the error it wraps. -/
inductive GoError where
  | base (msg : String)
  | wrap (msg : String) (inner : GoError)
  deriving DecidableEq, Repr

/-- The method `Error()`. -/
def GoError.Error : GoError → String
  | .base msg => msg
  | .wrap msg _ => msg

/-- The method `Unwrap()` as seen by `errors.Unwrap`. -/
def GoError.Unwrap : GoError → Option GoError
  | .base _ => none
  | .wrap _ inner => some inner

/-! ## The fragment of package `fmt` used by the source -/

/-- An operand of a formatting call. -/
inductive fmt.Arg where
  | str (s : String)
  | uint (n : Nat)
  | err (e : GoError)

/-- Decimal digits of an unsigned integer, as the loop of `fmt`'s
`fmtInteger` produces them for base 10 without flags: the last digit is
`u mod 10`, the digits before it are those of `u / 10`, and the loop stops
below 10. -/
def fmt.fmtInteger (u : Nat) : List Char :=
  if u < 10 then [Nat.digitChar u] else fmt.fmtInteger (u / 10) ++ [Nat.digitChar (u % 10)]
termination_by u
decreasing_by omega

/-- What `fmt` prints for an operand whose type the verb does not accept:
`%!verb(type=value)`. -/
def fmt.badVerb (verb : Char) : fmt.Arg → List Char
  | .str s => "%!".data ++ [verb] ++ "(string=".data ++ s.data ++ ")".data
  | .uint n => "%!".data ++ [verb] ++ "(uint=".data ++ fmt.fmtInteger n ++ ")".data
  | .err e => "%!".data ++ [verb] ++ "(error=".data ++ e.Error.data ++ ")".data

/-- One verb applied to one operand.  `%s` prints a string verbatim, `%d` an
unsigned integer in decimal, and `%w` (accepted only when `wrapErrs` is set,
that is inside `Errorf`), `%v` and `%s` print an error through its `Error()`
text.  These are the verbs of the format strings of this package; any other
combination is rendered as a bad verb. -/
def fmt.printVerb (wrapErrs : Bool) (verb : Char) (a : fmt.Arg) : List Char :=
  match a with
  | .str s => if verb = 's' then s.data else fmt.badVerb verb a
  | .uint n => if verb = 'd' then fmt.fmtInteger n else fmt.badVerb verb a
  | .err e =>
    if verb = 'v' ∨ verb = 's' ∨ (verb = 'w' ∧ wrapErrs = true) then e.Error.data
    else fmt.badVerb verb a

/-- The `type=value` rendering of a left-over operand. -/
def fmt.extraArg : fmt.Arg → List Char
  | .str s => "string=".data ++ s.data
  | .uint n => "uint=".data ++ fmt.fmtInteger n
  | .err e => "error=".data ++ e.Error.data

/-- The `%!(EXTRA ...)` trailer for operands that no verb consumed. -/
def fmt.extraArgs (as : List fmt.Arg) : List Char :=
  "%!(EXTRA ".data ++ ", ".data.intercalate (as.map fmt.extraArg) ++ ")".data

/-- The scanning loop of `fmt`: literal characters are copied, `%%` is a
percent sign, `%` followed by a verb consumes the next operand, a verb without
an operand prints `%!verb(MISSING)`, a trailing `%` prints `%!(NOVERB)`, and
operands left at the end are reported as `EXTRA`. -/
def fmt.doPrintf (wrapErrs : Bool) : List Char → List fmt.Arg → List Char
  | [], [] => []
  | [], a :: as => fmt.extraArgs (a :: as)
  | [c], args =>
    if c = '%' then "%!(NOVERB)".data ++ fmt.doPrintf wrapErrs [] args
    else c :: fmt.doPrintf wrapErrs [] args
  | c :: v :: rest, args =>
    if c = '%' then
      if v = '%' then '%' :: fmt.doPrintf wrapErrs rest args
      else match args with
        | [] => "%!".data ++ [v] ++ "(MISSING)".data ++ fmt.doPrintf wrapErrs rest []
        | a :: as => fmt.printVerb wrapErrs v a ++ fmt.doPrintf wrapErrs rest as
    else c :: fmt.doPrintf wrapErrs (v :: rest) args

/-- The function `fmt.Sprintf(format, a...)`. -/
def fmt.Sprintf (format : String) (a : List fmt.Arg) : String :=
  String.mk (fmt.doPrintf false format.data a)

/-- Whether the format contains the verb `%w`. -/
def fmt.hasWrapVerb : List Char → Bool
  | [] => false
  | [_] => false
  | c :: v :: rest =>
    if c = '%' then (if v = 'w' then true else fmt.hasWrapVerb rest)
    else fmt.hasWrapVerb (v :: rest)

/-- The function `fmt.Errorf(format, err)` with one error operand: the message
is formatted with `%w` enabled; if the format has a `%w` the result wraps
`err`, otherwise it is a plain error carrying the message. -/
def fmt.Errorf (format : String) (err : GoError) : GoError :=
  let s := String.mk (fmt.doPrintf true format.data [.err err])
  if fmt.hasWrapVerb format.data then .wrap s err else .base s

/-! ## `NewDSN` -/

/-- The function `NewDSN` of the source.  `port` is a Go `uint`; no arithmetic is
done on it, so it is a natural number here. -/
def NewDSN (user pwd host db : String) (port : Nat) : String :=
  let connStr := "%s:%s@tcp(%s:%d)/%s?parseTime=true&loc=Local" ++
    "&interpolateParams=true"
  fmt.Sprintf connStr [.str user, .str pwd, .str host, .uint port, .str db]

/-! ## Time and contexts -/

/-- The type `time.Duration`: a count of nanoseconds. -/
abbrev time.Duration := Int

/-- The constant `time.Second`. -/
def time.Second : time.Duration := 1000000000

/-- The package constant `ConnTimeout`. -/
def ConnTimeout : time.Duration := time.Second * 6

/-- A `context.Context`, identified by how it was derived.  `external` stands
for the contexts a caller builds elsewhere.  Whether a context is canceled or
expired is not part of this value: it follows from what happened so far. -/
inductive context.Context where
  | Background
  | WithTimeout (parent : context.Context) (timeout : time.Duration)
  | external (id : Nat)
  deriving DecidableEq, Repr

/-! ## Loggers -/

/-- Where a logger finally writes: the process-wide standard logger of the
logging package, or a logger object created by the application. -/
inductive log.Sink where
  | std
  | custom (id : Nat)
  deriving DecidableEq, Repr

/-- A logger handle: a sink and the fields attached so far. -/
structure log.Logger where
  sink : log.Sink
  fields : List (String × String)
  deriving DecidableEq, Repr

/-- The package-level `log.WithFields(fields)`: an entry of the standard
logger carrying the given fields. -/
def log.WithFields (fields : List (String × String)) : log.Logger :=
  ⟨.std, fields⟩

/-- The function `log.With(l, key, value)`: the same sink with one more field. -/
def log.With (l : log.Logger) (key value : String) : log.Logger :=
  { l with fields := l.fields ++ [(key, value)] }

/-- The function `log.NewHelper(l)`: the helper writes through `l`. -/
def log.NewHelper (l : log.Logger) : log.Logger := l

/-- Severity of a log entry. -/
inductive log.Level where
  | info
  | error
  deriving DecidableEq, Repr

/-- `x` is `l` with zero or more fields added. -/
def log.Logger.derivedFrom (x l : log.Logger) : Prop :=
  x.sink = l.sink ∧ l.fields <+: x.fields

instance (x l : log.Logger) : Decidable (x.derivedFrom l) := by
  unfold log.Logger.derivedFrom; exact inferInstance

/-! ## Handles of the two client libraries -/

/-- The fields of `redis.Options` that the source reads or its comment names. -/
structure redis.Options where
  Addr : String
  DialTimeout : time.Duration
  ReadTimeout : time.Duration
  WriteTimeout : time.Duration
  deriving DecidableEq, Repr

/-- A hook attached to a handle. -/
inductive Hook where
  | redisotelTracing
  | bundebugQuery
  | bunotelQuery (dbName : String)
  deriving DecidableEq, Repr

/-- A `*redis.Client`: the options object it was built from and its hooks. -/
structure redis.Client where
  opt : redis.Options
  hooks : List Hook
  deriving DecidableEq, Repr

/-- The method `rdb.AddHook(hook)`. -/
def redis.Client.AddHook (rdb : redis.Client) (hook : Hook) : redis.Client :=
  { rdb with hooks := rdb.hooks ++ [hook] }

/-- The fields of `pgdriver.Config`, the configuration of a connector, that
identify the store. -/
structure pgdriver.Config where
  Addr : String
  User : String
  Database : String
  deriving DecidableEq, Repr

/-- A `*bun.DB` over the connection pool opened for a connector. -/
structure bun.DB where
  connector : pgdriver.Config
  discardUnknownColumns : Bool
  hooks : List Hook
  deriving DecidableEq, Repr

/-- The method `db.AddQueryHook(hook)`. -/
def bun.DB.AddQueryHook (db : bun.DB) (hook : Hook) : bun.DB :=
  { db with hooks := db.hooks ++ [hook] }

/-- The call `bun.NewDB(sql.OpenDB(connector), pgdialect.New(),
bun.WithDiscardUnknownColumns())` on a connector that exists: nothing is
dialed yet. -/
def bun.NewDB (connector : pgdriver.Config) : bun.DB :=
  ⟨connector, true, []⟩

/-! ## Events and the library interface -/

/-- What the package does to the outside, in the order it does it.  A call
that has an answer records it.  A log entry records the logger it is written
through, its severity, its message and the key/value pair given with it:
`lh.Info("starting")` has a message only, `lh.Errorw("err", err)` a pair only,
and `h.Error(err)` has the text of `err` as its message. -/
inductive Event where
  | newClient (rdb : redis.Client)
  | addHook (rdb : redis.Client) (hook : Hook)
  | withTimeout (ctx : context.Context)
  | cancel (ctx : context.Context)
  | ping (rdb : redis.Client) (ctx : context.Context) (res : Option GoError)
  | close (rdb : redis.Client) (res : Option GoError)
  | openDB (db : bun.DB)
  | pgPing (db : bun.DB) (res : Option GoError)
  | pgClose (db : bun.DB) (res : Option GoError)
  | log (l : log.Logger) (level : log.Level) (msg : String) (keyval : Option (String × GoError))
  deriving DecidableEq, Repr

/-- The history of events, oldest first. -/
abbrev Trace := List Event

/-- The third-party operations the package calls.

* `ParseURL` is `redis.ParseURL`.
* `NewClient` is `redis.NewClient`.  It receives the pointer to the options
  and the client keeps that pointer, so `opt` of the returned client is the
  options object as the constructor left it (it may fill in defaults in place).
* `Ping`, `Close` are `rdb.Ping(ctx).Err()` and `rdb.Close()`; `PgPing`,
  `PgClose` are `db.Ping()` and `db.Close()`.  `none` is a `nil` error.  The
  answer may depend on the history.
* `ParseDSN` is the DSN parser of `pgdriver`, which `pgdriver.WithDSN` runs on
  its argument. -/
structure Lib where
  ParseURL : String → Except GoError redis.Options
  NewClient : redis.Options → redis.Client
  Ping : redis.Client → context.Context → Trace → Option GoError
  Close : redis.Client → Trace → Option GoError
  ParseDSN : String → Except GoError pgdriver.Config
  PgPing : bun.DB → Trace → Option GoError
  PgClose : bun.DB → Trace → Option GoError

/-- A Go `func()`: it runs against the history and extends it.  It has no
result and no error channel. -/
abbrev Cleanup := Trace → Trace

/-! ## `NewPostgres` -/

/-- The struct `Conf`. -/
structure Conf where
  DSN : String
  deriving DecidableEq, Repr

/-- The results `(res T, cleanup func(), err error)` of `NewPostgres`.  `T` has
underlying type `*bun.DB`, so `T(db)` is the same pointer. -/
structure PostgresResult where
  res : Option bun.DB
  cleanup : Option Cleanup
  err : Option GoError

/-- The call `pgdriver.NewConnector(pgdriver.WithDSN(dsn))`: the option parses
the DSN and panics with the parse error when the driver cannot parse it;
otherwise the connector carries the parsed configuration.  `error` is the
panic. -/
def pgdriver.NewConnector (L : Lib) (dsn : String) : Except GoError pgdriver.Config :=
  match L.ParseDSN dsn with
  | .error err => .error err
  | .ok cfg => .ok cfg

/-- The function `NewPostgres` of the source.  The first statement assigns to
the parameter `l`; a panic of the connector construction leaves the function
(`error`), since nothing recovers it; the closure captures `l` and `db`. -/
def NewPostgres (L : Lib) (c : Conf) (l : log.Logger) (t : Trace) :
    Except GoError (PostgresResult × Trace) :=
  let l := log.WithFields [("func", "NewPostgres")]
  match pgdriver.NewConnector L c.DSN with
  | .error perr => .error perr
  | .ok connector =>
    let db := bun.NewDB connector
    let t := t ++ [.openDB db]
    let db := db.AddQueryHook .bundebugQuery
    let db := db.AddQueryHook (.bunotelQuery connector.Database)
    let err := L.PgPing db t
    let t := t ++ [.pgPing db err]
    let cleanup : Cleanup := fun t =>
      let lh := log.NewHelper (log.With l "do" "cleanup")
      let t := t ++ [.log lh .info "starting" none]
      let cerr := L.PgClose db t
      let t := t ++ [.pgClose db cerr]
      match cerr with
      | some err => t ++ [.log lh .error "" (some ("err", err))]
      | none => t
    .ok (⟨some db, some cleanup, err⟩, t)

/-! ## `NewRedis` and `CheckRedis` -/

/-- The struct `RedisConf`. -/
structure RedisConf where
  DSN : String
  deriving DecidableEq, Repr

/-- The results `(rdb *redis.Client, cleanup func(), err error)` of `NewRedis`. -/
structure RedisResult where
  rdb : Option redis.Client
  cleanup : Option Cleanup
  err : Option GoError

/-- The function `NewRedis` of the source.  `opt` is a pointer that the client
constructor has received before `opt.DialTimeout` is read, so the field is
read from the options object as the constructor left it.  The deferred
`cancel()` runs when the function returns, on both returns that follow the
creation of the context. -/
def NewRedis (L : Lib) (cf : RedisConf) (l : log.Logger) (t : Trace) : RedisResult × Trace :=
  match L.ParseURL cf.DSN with
  | .error err => (⟨none, none, some (fmt.Errorf "parse url: %w" err)⟩, t)
  | .ok opt =>
    let h := log.NewHelper (log.With l "func" "NewRDB")
    let rdb := L.NewClient opt
    let opt := rdb.opt
    let t := t ++ [.newClient rdb]
    let t := t ++ [.addHook rdb .redisotelTracing]
    let rdb := rdb.AddHook .redisotelTracing
    let ctx := context.Context.WithTimeout .Background opt.DialTimeout
    let t := t ++ [.withTimeout ctx]
    let perr := L.Ping rdb ctx t
    let t := t ++ [.ping rdb ctx perr]
    match perr with
    | some err => (⟨none, none, some (fmt.Errorf "ping: %w" err)⟩, t ++ [.cancel ctx])
    | none =>
      let cleanup : Cleanup := fun t =>
        let cerr := L.Close rdb t
        let t := t ++ [.close rdb cerr]
        match cerr with
        | some err => t ++ [.log h .error err.Error none]
        | none => t
      (⟨some rdb, some cleanup, none⟩, t ++ [.cancel ctx])

/-- The function `CheckRedis` of the source: the probe it returns. -/
def CheckRedis (L : Lib) (rdb : redis.Client) : context.Context → Trace → Option GoError × Trace :=
  fun ctx t =>
    let err := L.Ping rdb ctx t
    (err, t ++ [.ping rdb ctx err])

/-! ## Vocabulary of the statements -/

/-- The value a run of decimal digits denotes. -/
def digitsVal (ds : List Char) : Nat :=
  ds.foldl (fun acc c => 10 * acc + (c.toNat - 48)) 0

/-- The answers of the redis pings recorded in a history, oldest first. -/
def pingAnswers : Trace → List (Option GoError)
  | [] => []
  | .ping _ _ res :: t => res :: pingAnswers t
  | _ :: t => pingAnswers t

/-- The event is a call of a handle's close operation. -/
def Event.isClose : Event → Bool
  | .close _ _ => true
  | .pgClose _ _ => true
  | _ => false

/-- The event is a log entry of error severity. -/
def Event.isErrorLog : Event → Bool
  | .log _ .error _ _ => true
  | _ => false

/-- The loggers through which the log entries of a history were written. -/
def loggersOf : Trace → List log.Logger
  | [] => []
  | .log l _ _ _ :: t => l :: loggersOf t
  | _ :: t => loggersOf t

/-- The client `NewRedis` pings and returns for parsed options `opt`: the
constructed client with the tracing hook attached. -/
def dialClient (L : Lib) (opt : redis.Options) : redis.Client :=
  (L.NewClient opt).AddHook .redisotelTracing

/-- The context of the liveness ping of `NewRedis`: derived from the
background context, with the `DialTimeout` of the options object as the
constructor left it. -/
def dialContext (L : Lib) (opt : redis.Options) : context.Context :=
  .WithTimeout .Background (L.NewClient opt).opt.DialTimeout

/-- The events of `NewRedis` that come before its ping. -/
def dialPrelude (L : Lib) (opt : redis.Options) : Trace :=
  [.newClient (L.NewClient opt), .addHook (L.NewClient opt) .redisotelTracing,
    .withTimeout (dialContext L opt)]

/-- The answer of the library to the liveness ping of `NewRedis` started
after history `t`. -/
def dialAnswer (L : Lib) (opt : redis.Options) (t : Trace) : Option GoError :=
  L.Ping (dialClient L opt) (dialContext L opt) (t ++ dialPrelude L opt)

/-- The handle `NewPostgres` builds over a connector: the `bun.DB` over the
pool opened for it, with the debug hook and the tracing hook attached. -/
def pgHandle (connector : pgdriver.Config) : bun.DB :=
  ((bun.NewDB connector).AddQueryHook .bundebugQuery).AddQueryHook
    (.bunotelQuery connector.Database)

/-- The answer of the library to the liveness ping of `NewPostgres` started
after history `t`. -/
def pgAnswer (L : Lib) (connector : pgdriver.Config) (t : Trace) : Option GoError :=
  L.PgPing (pgHandle connector) (t ++ [.openDB (bun.NewDB connector)])

/-- The logger through which the cleanup of `NewPostgres` writes. -/
def pgCleanupLogger : log.Logger :=
  log.NewHelper (log.With (log.WithFields [("func", "NewPostgres")]) "do" "cleanup")

/-- The answer of the library to the close call of the cleanup of
`NewPostgres` run after history `t`. -/
def pgCloseAnswer (L : Lib) (db : bun.DB) (t : Trace) : Option GoError :=
  L.PgClose db (t ++ [.log pgCleanupLogger .info "starting" none])

/-- The error `e` is a wrapping error tagged with a step: its message is the
tag, a colon and a blank, then the message of `inner`, and it unwraps to
`inner`. -/
def GoError.taggedBy (e : GoError) (tag : String) (inner : GoError) : Prop :=
  e.Error = tag ++ ": " ++ inner.Error ∧ e.Unwrap = some inner

/-- The DSN of the relational store that the sample libraries accept. -/
def samplePgDSN : String := "postgres://app@localhost:5432/app"

/-- The URL that the sample libraries accept. -/
def sampleURL : String := "redis://localhost:6379/0"

/-- A sample library: the parser accepts `sampleURL` and leaves the timeouts
unset, the client constructor fills in a dial timeout of five seconds, and
the driver of the relational store parses `samplePgDSN` and no other DSN, and
both stores answer every call. -/
def liveLib : Lib where
  ParseURL := fun s =>
    if s = sampleURL then .ok ⟨"localhost:6379", 0, 0, 0⟩
    else .error (.base "redis: invalid URL scheme: ")
  NewClient := fun opt =>
    ⟨{ opt with DialTimeout := if opt.DialTimeout = 0 then 5 * time.Second else opt.DialTimeout },
      []⟩
  Ping := fun _ _ _ => none
  Close := fun _ _ => none
  ParseDSN := fun s =>
    if s = samplePgDSN then .ok ⟨"localhost:5432", "app", "app"⟩
    else .error (.base "pgdriver: invalid scheme: ")
  PgPing := fun _ _ => none
  PgClose := fun _ _ => none

/-- A sample library whose stores are unreachable: every ping fails. -/
def downLib : Lib :=
  { liveLib with
    Ping := fun _ _ _ => some (.base "dial tcp 127.0.0.1:6379: connect: connection refused")
    PgPing := fun _ _ => some (.base "dial tcp 127.0.0.1:5432: connect: connection refused") }

/-- A sample library whose stores answer pings but fail to close. -/
def closeFailLib : Lib :=
  { liveLib with
    Close := fun _ _ => some (.base "redis: client is closed")
    PgClose := fun _ _ => some (.base "sql: database is closed") }

/-- A sample library whose ping fails exactly on a context that has been
canceled. -/
def cancelAwareLib : Lib :=
  { liveLib with
    Ping := fun _ ctx t => if Event.cancel ctx ∈ t then some (.base "context canceled") else none }

/-- A logger created by the application. -/
def appLogger : log.Logger := ⟨.custom 1, [("service", "app")]⟩

/-! ## Decimal digits -/

theorem fmtInteger_lt (u : Nat) (h : u < 10) : fmt.fmtInteger u = [Nat.digitChar u] := by
  rw [fmt.fmtInteger]; simp [h]

theorem fmtInteger_ge (u : Nat) (h : 10 ≤ u) :
    fmt.fmtInteger u = fmt.fmtInteger (u / 10) ++ [Nat.digitChar (u % 10)] := by
  rw [fmt.fmtInteger]; simp [Nat.not_lt.mpr h]

/-- With enough fuel the digit loop of the core library computes `fmtInteger`. -/
theorem toDigitsCore_eq_fmtInteger (fuel : Nat) : ∀ (n : Nat) (acc : List Char), n < fuel →
    Nat.toDigitsCore 10 fuel n acc = fmt.fmtInteger n ++ acc := by
  induction fuel with
  | zero => intro n acc h; omega
  | succ fuel ih =>
    intro n acc hn
    rw [Nat.toDigitsCore]
    by_cases h10 : n / 10 = 0
    · have hlt : n < 10 := by omega
      simp [h10, fmtInteger_lt n hlt, Nat.mod_eq_of_lt hlt]
    · have hge : 10 ≤ n := by omega
      simp only [h10, if_false]
      rw [ih (n / 10) _ (by omega), fmtInteger_ge n hge]
      simp

/-- `fmtInteger` is the decimal numeral that `toString` prints. -/
theorem fmtInteger_eq_toString (n : Nat) : String.mk (fmt.fmtInteger n) = toString n := by
  show _ = Nat.repr n
  simp [Nat.repr, Nat.toDigits, toDigitsCore_eq_fmtInteger (n + 1) n [] (by omega),
    List.asString]

theorem digitChar_toNat (m : Nat) (h : m < 10) : (Nat.digitChar m).toNat - 48 = m := by
  interval_cases m <;> rfl

theorem digitChar_ne_paren (m : Nat) (h : m < 10) : Nat.digitChar m ≠ ')' := by
  interval_cases m <;> decide

/-- Reading the digits back gives the number. -/
theorem digitsVal_fmtInteger (n : Nat) : digitsVal (fmt.fmtInteger n) = n := by
  induction n using Nat.strong_induction_on with
  | _ n ih =>
    by_cases h : n < 10
    · rw [fmtInteger_lt n h]
      simp [digitsVal, digitChar_toNat n h]
    · have hge : 10 ≤ n := by omega
      rw [fmtInteger_ge n hge]
      have := ih (n / 10) (by omega)
      unfold digitsVal at this ⊢
      rw [List.foldl_append, this]
      simp [digitChar_toNat (n % 10) (Nat.mod_lt _ (by omega))]
      omega

theorem fmtInteger_injective {m n : Nat} (h : fmt.fmtInteger m = fmt.fmtInteger n) : m = n := by
  rw [← digitsVal_fmtInteger m, ← digitsVal_fmtInteger n, h]

/-- No closing parenthesis occurs among the digits. -/
theorem paren_not_mem_fmtInteger (n : Nat) : ')' ∉ fmt.fmtInteger n := by
  induction n using Nat.strong_induction_on with
  | _ n ih =>
    by_cases h : n < 10
    · rw [fmtInteger_lt n h]
      simpa using (digitChar_ne_paren n h).symm
    · have hge : 10 ≤ n := by omega
      rw [fmtInteger_ge n hge]
      have := ih (n / 10) (by omega)
      have h2 := digitChar_ne_paren (n % 10) (Nat.mod_lt _ (by omega))
      simp [this, h2.symm]

/-- Two lists that agree and are each cut at the first occurrence of a
separator agree on both sides of the cut. -/
theorem split_at_separator {c : Char} {a b r s : List Char} (ha : c ∉ a) (hb : c ∉ b)
    (h : a ++ c :: r = b ++ c :: s) : a = b ∧ r = s := by
  induction a generalizing b with
  | nil =>
    cases b with
    | nil => exact ⟨rfl, by simpa using h⟩
    | cons y b =>
      have hy : c = y := by simpa using (List.cons.inj h).1
      exact absurd (hy ▸ List.mem_cons_self c b) hb
  | cons x a ih =>
    cases b with
    | nil =>
      have hx : x = c := by simpa using (List.cons.inj h).1
      exact absurd (hx ▸ List.mem_cons_self x a) ha
    | cons y b =>
      have hxy := (List.cons.inj h).1
      have ht := (List.cons.inj h).2
      obtain ⟨e, er⟩ := ih (fun hc => ha (List.mem_cons_of_mem _ hc))
        (fun hc => hb (List.mem_cons_of_mem _ hc)) ht
      exact ⟨by rw [hxy, e], er⟩

/-! ## Properties of `NewDSN` -/

/-- The characters of the DSN. -/
theorem NewDSN_data (user pwd host db : String) (port : Nat) :
    (NewDSN user pwd host db port).data =
      user.data ++ ':' :: (pwd.data ++ '@' :: ("tcp(".data ++ (host.data ++ ':' ::
        (fmt.fmtInteger port ++ ')' :: ('/' :: (db.data ++
          "?parseTime=true&loc=Local&interpolateParams=true".data)))))) := by
  simp [NewDSN, fmt.Sprintf, fmt.doPrintf, fmt.printVerb]

/-- C1: `NewDSN` returns the user, a colon, the password, `@tcp(`, the host, a
colon, the port as a decimal numeral, `)/`, the database name and the fixed
query string, each input verbatim. -/
theorem NewDSN_eq (user pwd host db : String) (port : Nat) :
    NewDSN user pwd host db port =
      user ++ ":" ++ pwd ++ "@tcp(" ++ host ++ ":" ++ toString port ++ ")/" ++ db ++
        "?parseTime=true&loc=Local&interpolateParams=true" := by
  apply String.ext
  rw [← fmtInteger_eq_toString, NewDSN_data]
  simp

/-- C10: on tuples whose user has no colon, whose password has no at-sign
and whose host has no colon, equal DSNs come from equal tuples; without the
restriction a colon can move between user and password. -/
theorem NewDSN_injective :
    (∀ (user1 pwd1 host1 db1 user2 pwd2 host2 db2 : String) (port1 port2 : Nat),
      ':' ∉ user1.data → ':' ∉ user2.data → '@' ∉ pwd1.data → '@' ∉ pwd2.data →
      ':' ∉ host1.data → ':' ∉ host2.data →
      NewDSN user1 pwd1 host1 db1 port1 = NewDSN user2 pwd2 host2 db2 port2 →
      user1 = user2 ∧ pwd1 = pwd2 ∧ host1 = host2 ∧ db1 = db2 ∧ port1 = port2) ∧
    (∀ (h d : String) (p : Nat), NewDSN "a:b" "c" h d p = NewDSN "a" "b:c" h d p) := by
  refine ⟨?_, ?_⟩
  · intro user1 pwd1 host1 db1 user2 pwd2 host2 db2 port1 port2 hu1 hu2 hp1 hp2 hh1 hh2 heq
    have hd := congrArg String.data heq
    rw [NewDSN_data, NewDSN_data] at hd
    obtain ⟨e1, hd⟩ := split_at_separator hu1 hu2 hd
    obtain ⟨e2, hd⟩ := split_at_separator hp1 hp2 hd
    have hd := List.append_cancel_left hd
    obtain ⟨e3, hd⟩ := split_at_separator hh1 hh2 hd
    obtain ⟨e4, hd⟩ := split_at_separator
      (paren_not_mem_fmtInteger port1) (paren_not_mem_fmtInteger port2) hd
    have hd := List.append_cancel_right (List.cons.inj hd).2
    exact ⟨String.ext e1, String.ext e2, String.ext e3, String.ext hd, fmtInteger_injective e4⟩
  · intro h d p
    apply String.ext
    rw [NewDSN_data, NewDSN_data]
    simp

/-- C10 at a concrete tuple. -/
theorem NewDSN_injective_witness :
    NewDSN "root" "s3cret" "127.0.0.1" "app" 3306 = NewDSN "root" "s3cret" "127.0.0.1" "app" 3306 ∧
    ("root" = "root" ∧ "s3cret" = "s3cret" ∧ "127.0.0.1" = "127.0.0.1" ∧ "app" = "app" ∧
      3306 = 3306) :=
  ⟨rfl, NewDSN_injective.1 "root" "s3cret" "127.0.0.1" "app" "root" "s3cret" "127.0.0.1" "app"
    3306 3306 (by decide) (by decide) (by decide) (by decide) (by decide) (by decide) rfl⟩

/-! ## Errors built by `Errorf` -/

theorem Errorf_parse_url (e : GoError) :
    fmt.Errorf "parse url: %w" e = .wrap ("parse url: " ++ e.Error) e := by
  have h : String.mk (fmt.doPrintf true "parse url: %w".data [.err e]) =
      "parse url: " ++ e.Error := by
    apply String.ext
    simp [fmt.doPrintf, fmt.printVerb]
  simp [fmt.Errorf, fmt.hasWrapVerb, h]

theorem Errorf_ping (e : GoError) :
    fmt.Errorf "ping: %w" e = .wrap ("ping: " ++ e.Error) e := by
  have h : String.mk (fmt.doPrintf true "ping: %w".data [.err e]) = "ping: " ++ e.Error := by
    apply String.ext
    simp [fmt.doPrintf, fmt.printVerb]
  simp [fmt.Errorf, fmt.hasWrapVerb, h]

/-! ## `NewRedis` -/

/-- `NewRedis` when the parser rejects the DSN. -/
theorem NewRedis_of_parse_error (L : Lib) (cf : RedisConf) (l : log.Logger) (t : Trace)
    (e : GoError) (h : L.ParseURL cf.DSN = .error e) :
    NewRedis L cf l t = (⟨none, none, some (.wrap ("parse url: " ++ e.Error) e)⟩, t) := by
  simp [NewRedis, h, Errorf_parse_url]

/-- C2: when the URL parser rejects the DSN, `NewRedis` returns a nil client, a
nil cleanup and an error whose message is "parse url: " followed by the
message of the parser error and which unwraps to the parser error; the
history is unchanged, so no client was constructed and no ping issued. -/
theorem NewRedis_parse_error (L : Lib) (cf : RedisConf) (l : log.Logger) (t : Trace)
    (e : GoError) (h : L.ParseURL cf.DSN = .error e) :
    (NewRedis L cf l t).1.rdb = none ∧ (NewRedis L cf l t).1.cleanup = none ∧
    (∃ w, (NewRedis L cf l t).1.err = some w ∧ w.Error = "parse url: " ++ e.Error ∧
      w.Unwrap = some e) ∧
    (NewRedis L cf l t).2 = t := by
  rw [NewRedis_of_parse_error L cf l t e h]
  exact ⟨rfl, rfl, ⟨_, rfl, rfl, rfl⟩, rfl⟩

/-- C2 on a DSN without a scheme. -/
theorem NewRedis_parse_error_witness :
    (NewRedis liveLib ⟨"localhost:6379"⟩ appLogger []).1.rdb = none ∧
    (NewRedis liveLib ⟨"localhost:6379"⟩ appLogger []).1.cleanup = none ∧
    (∃ w, (NewRedis liveLib ⟨"localhost:6379"⟩ appLogger []).1.err = some w ∧
      w.Error = "parse url: " ++ (GoError.base "redis: invalid URL scheme: ").Error ∧
      w.Unwrap = some (.base "redis: invalid URL scheme: ")) ∧
    (NewRedis liveLib ⟨"localhost:6379"⟩ appLogger []).2 = [] :=
  NewRedis_parse_error liveLib ⟨"localhost:6379"⟩ appLogger []
    (.base "redis: invalid URL scheme: ") (by simp [liveLib, sampleURL])

/-- The history after `NewRedis` when the DSN parses. -/
theorem NewRedis_trace_of_parse_ok (L : Lib) (cf : RedisConf) (l : log.Logger) (t : Trace)
    (opt : redis.Options) (h : L.ParseURL cf.DSN = .ok opt) :
    (NewRedis L cf l t).2 =
      t ++ dialPrelude L opt ++
        [.ping (dialClient L opt) (dialContext L opt) (dialAnswer L opt t),
          .cancel (dialContext L opt)] := by
  simp only [NewRedis, h, dialPrelude, dialClient, dialContext, dialAnswer]
  split <;> simp

/-- The results of `NewRedis` when the DSN parses and the ping succeeds. -/
theorem NewRedis_of_ping_ok (L : Lib) (cf : RedisConf) (l : log.Logger) (t : Trace)
    (opt : redis.Options) (h : L.ParseURL cf.DSN = .ok opt) (hp : dialAnswer L opt t = none) :
    (NewRedis L cf l t).1.rdb = some (dialClient L opt) ∧
    (NewRedis L cf l t).1.cleanup.isSome = true ∧ (NewRedis L cf l t).1.err = none := by
  simp only [dialAnswer, dialPrelude, dialClient, dialContext] at hp
  simp [NewRedis, h, hp, dialClient]

/-- The results of `NewRedis` when the DSN parses and the ping fails. -/
theorem NewRedis_of_ping_error (L : Lib) (cf : RedisConf) (l : log.Logger) (t : Trace)
    (opt : redis.Options) (e : GoError) (h : L.ParseURL cf.DSN = .ok opt)
    (hp : dialAnswer L opt t = some e) :
    (NewRedis L cf l t).1.rdb = none ∧ (NewRedis L cf l t).1.cleanup = none ∧
    (NewRedis L cf l t).1.err = some (.wrap ("ping: " ++ e.Error) e) := by
  simp only [dialAnswer, dialPrelude, dialClient, dialContext] at hp
  simp [NewRedis, h, hp, Errorf_ping]

theorem pingAnswers_NewRedis (L : Lib) (cf : RedisConf) (l : log.Logger) (t : Trace)
    (opt : redis.Options) (h : L.ParseURL cf.DSN = .ok opt) :
    pingAnswers ((NewRedis L cf l t).2.drop t.length) = [dialAnswer L opt t] := by
  rw [NewRedis_trace_of_parse_ok L cf l t opt h]
  simp [pingAnswers, dialPrelude]

/-- C3: when the DSN parses, `NewRedis` issues one ping and its answer alone
decides the results: a nil answer gives the client, a cleanup and a nil
error; an error answer gives a nil client, a nil cleanup and an error whose
message is "ping: " followed by the message of the ping error and which
unwraps to it.  The returned error is nil exactly when the DSN parses and the
ping succeeds. -/
theorem NewRedis_ping_decides (L : Lib) (cf : RedisConf) (l : log.Logger) (t : Trace) :
    (∀ opt, L.ParseURL cf.DSN = .ok opt →
      pingAnswers ((NewRedis L cf l t).2.drop t.length) = [dialAnswer L opt t] ∧
      (dialAnswer L opt t = none →
        (NewRedis L cf l t).1.rdb = some (dialClient L opt) ∧
        (NewRedis L cf l t).1.cleanup.isSome = true ∧ (NewRedis L cf l t).1.err = none) ∧
      (∀ e, dialAnswer L opt t = some e →
        (NewRedis L cf l t).1.rdb = none ∧ (NewRedis L cf l t).1.cleanup = none ∧
        ∃ w, (NewRedis L cf l t).1.err = some w ∧ w.Error = "ping: " ++ e.Error ∧
          w.Unwrap = some e)) ∧
    ((NewRedis L cf l t).1.err = none ↔
      ∃ opt, L.ParseURL cf.DSN = .ok opt ∧ dialAnswer L opt t = none) := by
  refine ⟨?_, ?_⟩
  · intro opt h
    refine ⟨pingAnswers_NewRedis L cf l t opt h, NewRedis_of_ping_ok L cf l t opt h, ?_⟩
    intro e hp
    obtain ⟨h1, h2, h3⟩ := NewRedis_of_ping_error L cf l t opt e h hp
    exact ⟨h1, h2, _, h3, rfl, rfl⟩
  · cases h : L.ParseURL cf.DSN with
    | error e =>
      rw [NewRedis_of_parse_error L cf l t e h]
      simp
    | ok opt =>
      cases hp : dialAnswer L opt t with
      | none =>
        rw [(NewRedis_of_ping_ok L cf l t opt h hp).2.2]
        simp [hp]
      | some e =>
        rw [(NewRedis_of_ping_error L cf l t opt e h hp).2.2]
        simp [hp]

/-- C3 on a reachable and on an unreachable store. -/
theorem NewRedis_ping_decides_witness :
    (NewRedis liveLib ⟨sampleURL⟩ appLogger []).1.err = none ∧
    ((NewRedis downLib ⟨sampleURL⟩ appLogger []).1.rdb = none ∧
      (NewRedis downLib ⟨sampleURL⟩ appLogger []).1.cleanup = none ∧
      ∃ w, (NewRedis downLib ⟨sampleURL⟩ appLogger []).1.err = some w ∧
        w.Error = "ping: " ++
          (GoError.base "dial tcp 127.0.0.1:6379: connect: connection refused").Error ∧
        w.Unwrap = some (.base "dial tcp 127.0.0.1:6379: connect: connection refused")) :=
  ⟨(NewRedis_ping_decides liveLib ⟨sampleURL⟩ appLogger []).2.mpr
      ⟨⟨"localhost:6379", 0, 0, 0⟩, by simp [liveLib], rfl⟩,
    ((NewRedis_ping_decides downLib ⟨sampleURL⟩ appLogger []).1 ⟨"localhost:6379", 0, 0, 0⟩
      (by simp [downLib, liveLib])).2.2 _ rfl⟩

/-- C7: when the DSN parses, `NewRedis` constructs the client, attaches the
hook, derives one context from the background context whose timeout is the
`DialTimeout` field of the parsed options object (read where the source
reads it, after the constructor has been handed the object; it is the value
the parser returned whenever the constructor leaves the field alone), pings
once with that context, and cancels that context after the ping whatever the
ping answered; when the DSN does not parse, nothing happens, so no context is
created. -/
theorem NewRedis_ping_context (L : Lib) (cf : RedisConf) (l : log.Logger) (t : Trace) :
    (∀ opt, L.ParseURL cf.DSN = .ok opt →
      (NewRedis L cf l t).2 =
        t ++ [.newClient (L.NewClient opt), .addHook (L.NewClient opt) .redisotelTracing,
          .withTimeout (.WithTimeout .Background (L.NewClient opt).opt.DialTimeout),
          .ping (dialClient L opt) (.WithTimeout .Background (L.NewClient opt).opt.DialTimeout)
            (dialAnswer L opt t),
          .cancel (.WithTimeout .Background (L.NewClient opt).opt.DialTimeout)]) ∧
    (∀ opt, L.ParseURL cf.DSN = .ok opt → (L.NewClient opt).opt.DialTimeout = opt.DialTimeout →
      Event.withTimeout (.WithTimeout .Background opt.DialTimeout) ∈
        (NewRedis L cf l t).2.drop t.length) ∧
    (∀ e, L.ParseURL cf.DSN = .error e → (NewRedis L cf l t).2 = t) := by
  refine ⟨?_, ?_, ?_⟩
  · intro opt h
    rw [NewRedis_trace_of_parse_ok L cf l t opt h]
    simp [dialPrelude, dialContext]
  · intro opt h hd
    rw [NewRedis_trace_of_parse_ok L cf l t opt h]
    simp [dialPrelude, dialContext, hd]
  · intro e h
    rw [NewRedis_of_parse_error L cf l t e h]

/-- C7 on the sample library: the timeout of the context is the five seconds
found in the options object, not `ConnTimeout`. -/
theorem NewRedis_ping_context_witness :
    (NewRedis downLib ⟨sampleURL⟩ appLogger []).2 =
      [.newClient ⟨⟨"localhost:6379", 5000000000, 0, 0⟩, []⟩,
        .addHook ⟨⟨"localhost:6379", 5000000000, 0, 0⟩, []⟩ .redisotelTracing,
        .withTimeout (.WithTimeout .Background 5000000000),
        .ping ⟨⟨"localhost:6379", 5000000000, 0, 0⟩, [.redisotelTracing]⟩
          (.WithTimeout .Background 5000000000)
          (some (.base "dial tcp 127.0.0.1:6379: connect: connection refused")),
        .cancel (.WithTimeout .Background 5000000000)] ∧
    ConnTimeout = 6000000000 :=
  ⟨(NewRedis_ping_context downLib ⟨sampleURL⟩ appLogger []).1 ⟨"localhost:6379", 0, 0, 0⟩
    (by simp [downLib, liveLib]), by decide⟩

/-! ## `NewPostgres` -/

/-- `NewPostgres` on a DSN that the driver parses. -/
theorem NewPostgres_of_parse_ok (L : Lib) (c : Conf) (l : log.Logger) (t : Trace)
    (cfg : pgdriver.Config) (h : L.ParseDSN c.DSN = .ok cfg) :
    ∃ f, NewPostgres L c l t =
      .ok (⟨some (pgHandle cfg), some f, pgAnswer L cfg t⟩,
        t ++ [.openDB (bun.NewDB cfg), .pgPing (pgHandle cfg) (pgAnswer L cfg t)]) := by
  simp [NewPostgres, pgdriver.NewConnector, h, pgHandle, pgAnswer]

/-- `NewPostgres` on a DSN that the driver cannot parse. -/
theorem NewPostgres_of_parse_error (L : Lib) (c : Conf) (l : log.Logger) (t : Trace)
    (e : GoError) (h : L.ParseDSN c.DSN = .error e) : NewPostgres L c l t = .error e := by
  simp [NewPostgres, pgdriver.NewConnector, h]

/-- C4, refuted for a DSN that the driver cannot parse: on the empty DSN the
connector construction panics and `NewPostgres` returns nothing, neither a
handle nor a cleanup nor an error. -/
theorem NewPostgres_panics_on_bad_DSN :
    NewPostgres liveLib ⟨""⟩ appLogger [] = .error (.base "pgdriver: invalid scheme: ") ∧
    ¬ ∃ r, NewPostgres liveLib ⟨""⟩ appLogger [] = .ok r := by
  have h : NewPostgres liveLib ⟨""⟩ appLogger [] = .error (.base "pgdriver: invalid scheme: ") :=
    rfl
  refine ⟨h, ?_⟩
  rintro ⟨r, hr⟩
  rw [h] at hr
  cases hr

/-- C4, amended: on a DSN that the driver parses, whatever the liveness ping
answers, `NewPostgres` returns; it returns the handle it constructed and a
cleanup function, both non-nil, and its error is the answer of the ping
itself: nil exactly when the ping succeeded.  On a DSN that the driver cannot
parse it does not return. -/
theorem NewPostgres_handle_despite_ping (L : Lib) (c : Conf) (l : log.Logger) (t : Trace) :
    (∀ cfg, L.ParseDSN c.DSN = .ok cfg →
      ∃ r, NewPostgres L c l t = .ok r ∧
        r.1.res = some (pgHandle cfg) ∧
        r.1.cleanup.isSome = true ∧
        r.1.err = pgAnswer L cfg t ∧
        r.2 = t ++ [.openDB (bun.NewDB cfg), .pgPing (pgHandle cfg) (pgAnswer L cfg t)] ∧
        (r.1.err = none ↔ pgAnswer L cfg t = none) ∧
        (∀ e, pgAnswer L cfg t = some e →
          r.1.res ≠ none ∧ r.1.cleanup ≠ none ∧ r.1.err = some e)) ∧
    (∀ e, L.ParseDSN c.DSN = .error e → NewPostgres L c l t = .error e) := by
  refine ⟨?_, fun e h => NewPostgres_of_parse_error L c l t e h⟩
  intro cfg h
  obtain ⟨f, hf⟩ := NewPostgres_of_parse_ok L c l t cfg h
  refine ⟨_, hf, rfl, rfl, rfl, rfl, Iff.rfl, ?_⟩
  intro e he
  exact ⟨by simp, by simp, he⟩

/-- C4, amended, on an unreachable store. -/
theorem NewPostgres_handle_despite_ping_witness :
    ∃ r, NewPostgres downLib ⟨samplePgDSN⟩ appLogger [] = .ok r ∧
      r.1.res = some (pgHandle ⟨"localhost:5432", "app", "app"⟩) ∧
      r.1.cleanup.isSome = true ∧
      r.1.err = some (.base "dial tcp 127.0.0.1:5432: connect: connection refused") :=
  have h := (NewPostgres_handle_despite_ping downLib ⟨samplePgDSN⟩ appLogger []).1
    ⟨"localhost:5432", "app", "app"⟩ rfl
  ⟨h.choose, h.choose_spec.1, h.choose_spec.2.1, h.choose_spec.2.2.1, h.choose_spec.2.2.2.1⟩

/-- The cleanup of `NewPostgres`, run after any history. -/
theorem NewPostgres_cleanup_run (L : Lib) (c : Conf) (l : log.Logger) (t : Trace)
    (r : PostgresResult × Trace) (f : Cleanup) (db : bun.DB)
    (hr : NewPostgres L c l t = .ok r) (hf : r.1.cleanup = some f) (hdb : r.1.res = some db)
    (t' : Trace) :
    f t' = t' ++ [.log pgCleanupLogger .info "starting" none,
        .pgClose db (pgCloseAnswer L db t')] ++
      (match pgCloseAnswer L db t' with
        | some e => [.log pgCleanupLogger .error "" (some ("err", e))]
        | none => []) := by
  cases h : L.ParseDSN c.DSN with
  | error e =>
    rw [NewPostgres_of_parse_error L c l t e h] at hr
    cases hr
  | ok cfg =>
    simp only [NewPostgres, pgdriver.NewConnector, h, Except.ok.injEq] at hr
    subst hr
    simp only [Option.some.injEq] at hf hdb
    subst hf
    subst hdb
    simp only [pgCloseAnswer, pgCleanupLogger]
    split <;> rename_i h <;> simp [h]

/-- The cleanup of `NewRedis`, run after any history. -/
theorem NewRedis_cleanup_run (L : Lib) (cf : RedisConf) (l : log.Logger) (t : Trace)
    (f : Cleanup) (hf : (NewRedis L cf l t).1.cleanup = some f) :
    ∃ opt, L.ParseURL cf.DSN = .ok opt ∧ dialAnswer L opt t = none ∧
      ∀ t', f t' = t' ++ [.close (dialClient L opt) (L.Close (dialClient L opt) t')] ++
        (match L.Close (dialClient L opt) t' with
          | some e => [.log (log.NewHelper (log.With l "func" "NewRDB")) .error e.Error none]
          | none => []) := by
  cases h : L.ParseURL cf.DSN with
  | error e =>
    rw [NewRedis_of_parse_error L cf l t e h] at hf
    cases hf
  | ok opt =>
    cases hp : dialAnswer L opt t with
    | some e =>
      rw [(NewRedis_of_ping_error L cf l t opt e h hp).2.1] at hf
      cases hf
    | none =>
      refine ⟨opt, rfl, hp, ?_⟩
      intro t'
      simp [dialAnswer, dialPrelude, dialClient, dialContext] at hp
      simp [NewRedis, h, hp] at hf
      subst hf
      simp only [dialClient]
      split <;> rename_i hc <;> simp [hc]

/-! ## Errors of the two initializers -/

/-- C5, refuted for `NewPostgres`: on an unreachable store it returns the error
of the ping as the library produced it, which wraps nothing and carries no
step tag. -/
theorem NewPostgres_error_not_tagged :
    (∃ r, NewPostgres downLib ⟨samplePgDSN⟩ appLogger [] = .ok r ∧
      r.1.err = some (.base "dial tcp 127.0.0.1:5432: connect: connection refused") ∧
      r.1.err = downLib.PgPing (pgHandle ⟨"localhost:5432", "app", "app"⟩)
        [.openDB (bun.NewDB ⟨"localhost:5432", "app", "app"⟩)]) ∧
    ¬ ∃ tag inner, (GoError.base
      "dial tcp 127.0.0.1:5432: connect: connection refused").taggedBy tag inner := by
  refine ⟨⟨_, rfl, rfl, rfl⟩, ?_⟩
  rintro ⟨tag, inner, -, h⟩
  cases h

/-- C5, amended: every error `NewRedis` returns is a wrapping error tagged
"parse url" over the parser error or "ping" over the ping error; the error
`NewPostgres` returns is the answer of its ping, as is. -/
theorem setup_errors (L : Lib) (cf : RedisConf) (c : Conf) (l : log.Logger) (t : Trace) :
    (∀ e, (NewRedis L cf l t).1.err = some e →
      (∃ inner, L.ParseURL cf.DSN = .error inner ∧ e.taggedBy "parse url" inner) ∨
      (∃ opt inner, L.ParseURL cf.DSN = .ok opt ∧ dialAnswer L opt t = some inner ∧
        e.taggedBy "ping" inner)) ∧
    (∀ r, NewPostgres L c l t = .ok r →
      ∃ cfg, L.ParseDSN c.DSN = .ok cfg ∧ r.1.err = pgAnswer L cfg t) := by
  refine ⟨?_, ?_⟩
  rotate_left
  · intro r hr
    cases h : L.ParseDSN c.DSN with
    | error e =>
      rw [NewPostgres_of_parse_error L c l t e h] at hr
      cases hr
    | ok cfg =>
      obtain ⟨f, hf⟩ := NewPostgres_of_parse_ok L c l t cfg h
      rw [hf] at hr
      simp only [Except.ok.injEq] at hr
      subst hr
      exact ⟨cfg, rfl, rfl⟩
  intro e he
  cases h : L.ParseURL cf.DSN with
  | error inner =>
    rw [NewRedis_of_parse_error L cf l t inner h] at he
    simp only [Option.some.injEq] at he
    subst he
    exact Or.inl ⟨inner, rfl, rfl, rfl⟩
  | ok opt =>
    cases hp : dialAnswer L opt t with
    | none =>
      rw [(NewRedis_of_ping_ok L cf l t opt h hp).2.2] at he
      cases he
    | some inner =>
      rw [(NewRedis_of_ping_error L cf l t opt inner h hp).2.2] at he
      simp only [Option.some.injEq] at he
      subst he
      exact Or.inr ⟨opt, inner, rfl, hp, rfl, rfl⟩

/-- C5, amended, on an unreachable cache store. -/
theorem setup_errors_witness :
    (∃ inner, downLib.ParseURL sampleURL = .error inner ∧
      (GoError.wrap "ping: dial tcp 127.0.0.1:6379: connect: connection refused"
        (.base "dial tcp 127.0.0.1:6379: connect: connection refused")).taggedBy
          "parse url" inner) ∨
    (∃ opt inner, downLib.ParseURL sampleURL = .ok opt ∧
      dialAnswer downLib opt [] = some inner ∧
      (GoError.wrap "ping: dial tcp 127.0.0.1:6379: connect: connection refused"
        (.base "dial tcp 127.0.0.1:6379: connect: connection refused")).taggedBy "ping" inner) :=
  (setup_errors downLib ⟨sampleURL⟩ ⟨samplePgDSN⟩ appLogger []).1 _ (by decide)

/-! ## The cleanup functions -/

/-- C6: a run of the cleanup returned by `NewPostgres`, and of the one returned
by `NewRedis`, returns to its caller with the history extended; among the new
events there is exactly one close call, on the handle that the initializer
returned, and there is an entry of error severity exactly when that close
call answered with an error.  The answer of the close call goes nowhere else. -/
theorem cleanup_closes_once (L : Lib) :
    (∀ (c : Conf) (l : log.Logger) (t : Trace) (r : PostgresResult × Trace) (f : Cleanup)
        (db : bun.DB),
      NewPostgres L c l t = .ok r → r.1.cleanup = some f → r.1.res = some db →
      ∀ t', t' <+: f t' ∧
        ((f t').drop t'.length).filter Event.isClose = [.pgClose db (pgCloseAnswer L db t')] ∧
        (((f t').drop t'.length).countP Event.isErrorLog =
          if pgCloseAnswer L db t' = none then 0 else 1)) ∧
    (∀ (cf : RedisConf) (l : log.Logger) (t : Trace) (f : Cleanup) (rdb : redis.Client),
      (NewRedis L cf l t).1.cleanup = some f → (NewRedis L cf l t).1.rdb = some rdb →
      ∀ t', t' <+: f t' ∧
        ((f t').drop t'.length).filter Event.isClose = [.close rdb (L.Close rdb t')] ∧
        (((f t').drop t'.length).countP Event.isErrorLog =
          if L.Close rdb t' = none then 0 else 1)) := by
  refine ⟨?_, ?_⟩
  · intro c l t r f db hr hf hdb t'
    rw [NewPostgres_cleanup_run L c l t r f db hr hf hdb t']
    cases h : pgCloseAnswer L db t' <;>
      simp [Event.isClose, Event.isErrorLog, List.append_assoc]
  · intro cf l t f rdb hf hrdb t'
    obtain ⟨opt, h, hp, hrun⟩ := NewRedis_cleanup_run L cf l t f hf
    rw [(NewRedis_of_ping_ok L cf l t opt h hp).1] at hrdb
    have hrdb' := Option.some.inj hrdb
    subst hrdb'
    rw [hrun t']
    cases h : L.Close (dialClient L opt) t' <;>
      simp [Event.isClose, Event.isErrorLog, List.append_assoc]

/-- C6 on stores whose close fails: the cleanup returns, with one close call
and one error entry. -/
theorem cleanup_closes_once_witness :
    (∃ r f db, NewPostgres closeFailLib ⟨samplePgDSN⟩ appLogger [] = .ok r ∧
      r.1.cleanup = some f ∧ r.1.res = some db ∧
      ((f []).drop 0).filter Event.isClose = [.pgClose db (some (.base "sql: database is closed"))] ∧
      ((f []).drop 0).countP Event.isErrorLog = 1) ∧
    (∃ f rdb, (NewRedis closeFailLib ⟨sampleURL⟩ appLogger []).1.cleanup = some f ∧
      (NewRedis closeFailLib ⟨sampleURL⟩ appLogger []).1.rdb = some rdb ∧
      ((f []).drop 0).filter Event.isClose =
        [.close rdb (some (.base "redis: client is closed"))] ∧
      ((f []).drop 0).countP Event.isErrorLog = 1) :=
  ⟨⟨_, _, _, rfl, rfl, rfl,
      ((cleanup_closes_once closeFailLib).1 ⟨samplePgDSN⟩ appLogger [] _ _ _ rfl rfl rfl
        []).2⟩,
    ⟨_, _, rfl, rfl,
      ((cleanup_closes_once closeFailLib).2 ⟨sampleURL⟩ appLogger [] _ _ rfl rfl []).2⟩⟩

/-! ## `CheckRedis` -/

/-- C8: a call of the probe issues one ping on the client with the context of
the caller and returns the answer of that ping as it is, so it returns nil
exactly when the ping succeeded and an error whenever the ping answered with
one, also on a canceled or expired context; a second call of the same probe
does the same against the history it finds. -/
theorem CheckRedis_probe (L : Lib) (rdb : redis.Client) (ctx : context.Context) (t : Trace) :
    (CheckRedis L rdb ctx t).1 = L.Ping rdb ctx t ∧
    (CheckRedis L rdb ctx t).2 = t ++ [.ping rdb ctx (L.Ping rdb ctx t)] ∧
    ((CheckRedis L rdb ctx t).1 = none ↔ L.Ping rdb ctx t = none) ∧
    (∀ e, L.Ping rdb ctx t = some e → (CheckRedis L rdb ctx t).1 = some e) ∧
    (∀ ctx2, CheckRedis L rdb ctx2 (CheckRedis L rdb ctx t).2 =
      (L.Ping rdb ctx2 (t ++ [.ping rdb ctx (L.Ping rdb ctx t)]),
        t ++ [.ping rdb ctx (L.Ping rdb ctx t)] ++
          [.ping rdb ctx2 (L.Ping rdb ctx2 (t ++ [.ping rdb ctx (L.Ping rdb ctx t)]))])) :=
  ⟨rfl, rfl, Iff.rfl, fun _ h => h, fun _ => rfl⟩

/-- C8 on a canceled context. -/
theorem CheckRedis_probe_witness :
    (CheckRedis cancelAwareLib ⟨⟨"localhost:6379", 5000000000, 0, 0⟩, []⟩ (.external 1)
      [.cancel (.external 1)]).1 = some (.base "context canceled") :=
  (CheckRedis_probe cancelAwareLib ⟨⟨"localhost:6379", 5000000000, 0, 0⟩, []⟩ (.external 1)
    [.cancel (.external 1)]).2.2.2.1 (.base "context canceled") (by decide)

/-! ## Loggers of the cleanup functions -/

/-- C9, evaluated at a logger of the application: the two entries that the
cleanup of `NewPostgres` writes go through the standard logger, which is not
derived from the logger passed in, whereas the entry that the cleanup of
`NewRedis` writes goes through a logger derived from the one passed in. -/
theorem NewPostgres_cleanup_logger :
    (∃ r f, NewPostgres closeFailLib ⟨samplePgDSN⟩ appLogger [] = .ok r ∧
      r.1.cleanup = some f ∧
      loggersOf (f []) =
        [⟨.std, [("func", "NewPostgres"), ("do", "cleanup")]⟩,
          ⟨.std, [("func", "NewPostgres"), ("do", "cleanup")]⟩] ∧
      ∀ x ∈ loggersOf (f []), x.sink = .std ∧ ¬ x.derivedFrom appLogger) ∧
    (∃ f, (NewRedis closeFailLib ⟨sampleURL⟩ appLogger []).1.cleanup = some f ∧
      loggersOf (f []) = [⟨.custom 1, [("service", "app"), ("func", "NewRDB")]⟩] ∧
      ∀ x ∈ loggersOf (f []), x.derivedFrom appLogger) :=
  ⟨⟨_, _, rfl, rfl, rfl, by decide⟩, ⟨_, rfl, rfl, by decide⟩⟩

end Db
